import Mathlib

/-!
Verification of the streaming anomaly detector implemented in `src/Anomaly.py`.

The detector keeps a bounded FIFO window (`collections.deque` with `maxlen`),
exponentially weighted moving statistics (`ewma_mean`, `ewma_var`), and flags a
sample as anomalous when the absolute z-score against the rolling window
exceeds a threshold.  Real numbers model Python floats; `Real.sqrt` models the
square root inside `np.std`.
-/

namespace Anomaly

/-- Embedding of `np.mean` on a list: sum divided by the element count.
(On the empty list Lean's `x / 0 = 0` convention stands in for numpy's NaN;
the detector only compares the derived std against `0`, where both give the
same branch.) -/
noncomputable def listMean (l : List ℝ) : ℝ := l.sum / l.length

/-- Population variance as `np.std` computes it before the square root:
mean of squared deviations, dividing by the count (ddof = 0), not count - 1. -/
noncomputable def listPopVar (l : List ℝ) : ℝ :=
  ((l.map fun x => (x - listMean l) ^ 2).sum) / l.length

/-- Embedding of `np.std` (population standard deviation, ddof = 0). -/
noncomputable def listPopStd (l : List ℝ) : ℝ := Real.sqrt (listPopVar l)

/-- The state of `AnomalyDetector`: configuration fields plus the rolling
window and the EWMA statistics (`__init__`, lines 42-48 of `Anomaly.py`). -/
structure AnomalyDetector where
  window_size : ℕ
  alpha : ℝ
  z_thresh : ℝ
  data_window : List ℝ
  ewma_mean : ℝ
  ewma_var : ℝ

/-- `collections.deque.append` under a `maxlen` bound: append on the right,
then discard from the left whatever exceeds `maxlen`. -/
def dequeAppend (maxlen : ℕ) (l : List ℝ) (v : ℝ) : List ℝ :=
  let l2 := l ++ [v]
  if maxlen < l2.length then l2.drop (l2.length - maxlen) else l2

/-- The record `AnomalyDetector.__init__` builds: empty window,
`ewma_mean = 0`, `ewma_var = 0`. -/
noncomputable def initState (window_size : ℕ) (alpha z_thresh : ℝ) :
    AnomalyDetector :=
  { window_size := window_size
    alpha := alpha
    z_thresh := z_thresh
    data_window := []
    ewma_mean := 0
    ewma_var := 0 }

/-- Full constructor behaviour, including the `ValueError` that
`deque(maxlen=window_size)` raises when `window_size` is negative.  No other
configuration value is checked anywhere in `__init__`. -/
noncomputable def mkDetector (window_size : ℤ) (alpha z_thresh : ℝ) :
    Except String AnomalyDetector :=
  if window_size < 0 then Except.error "maxlen must be non-negative"
  else Except.ok (initState window_size.toNat alpha z_thresh)

/-- `AnomalyDetector.update_ewma` (lines 50-61): cold-start branch when the
window is empty, otherwise the mean is updated first and the variance update
reads the just-updated mean. -/
noncomputable def update_ewma (d : AnomalyDetector) (value : ℝ) :
    AnomalyDetector :=
  if d.data_window.length = 0 then
    { d with ewma_mean := value, ewma_var := 0 }
  else
    let m := d.alpha * value + (1 - d.alpha) * d.ewma_mean
    { d with
      ewma_mean := m
      ewma_var := d.alpha * (value - m) ^ 2 + (1 - d.alpha) * d.ewma_var }

/-- `AnomalyDetector.detect_anomaly` (lines 63-81): append to the window;
while the window is not yet full return `False`; otherwise compute rolling
mean/std over the post-append window, the guarded z-score, update the EWMA
state, and return `abs(z) > z_thresh`.  The returned pair is (new state,
returned boolean). -/
noncomputable def detect_anomaly (d : AnomalyDetector) (value : ℝ) :
    AnomalyDetector × Bool :=
  let d1 := { d with data_window := dequeAppend d.window_size d.data_window value }
  if d1.data_window.length < d1.window_size then (d1, false)
  else
    let mean := listMean d1.data_window
    let std := listPopStd d1.data_window
    let z := if std > 0 then (value - mean) / std else 0
    let d2 := update_ewma d1 value
    (d2, decide (|z| > d1.z_thresh))

/-- Feeding a finite sample sequence through the detector, collecting the
booleans `detect_anomaly` returns, in order. -/
noncomputable def runDetector : AnomalyDetector → List ℝ → AnomalyDetector × List Bool
  | d, [] => (d, [])
  | d, v :: vs =>
    let r := detect_anomaly d v
    let rest := runDetector r.1 vs
    (rest.1, r.2 :: rest.2)

/-- The decision part of `detect_anomaly`, as a function of the window size,
the threshold, the pre-append window and the new value only.  Used to show the
EWMA fields never influence the returned boolean. -/
noncomputable def scoreDecision (N : ℕ) (t : ℝ) (w : List ℝ) (v : ℝ) : Bool :=
  let w2 := dequeAppend N w v
  if w2.length < N then false
  else
    let mean := listMean w2
    let std := listPopStd w2
    let z := if std > 0 then (v - mean) / std else 0
    decide (|z| > t)

/-! ### Basic facts about the embedded operations -/

theorem dequeAppend_eq_drop (N : ℕ) (l : List ℝ) (v : ℝ) :
    dequeAppend N l v = (l ++ [v]).drop (l.length + 1 - N) := by
  simp only [dequeAppend]
  split
  · simp
  · next h =>
    simp only [List.length_append, List.length_cons, List.length_nil] at h
    have h0 : l.length + 1 - N = 0 := by omega
    rw [h0, List.drop_zero]

theorem dequeAppend_length (N : ℕ) (l : List ℝ) (v : ℝ) :
    (dequeAppend N l v).length = min (l.length + 1) N := by
  rw [dequeAppend_eq_drop]
  simp only [List.length_drop, List.length_append, List.length_cons,
    List.length_nil]
  omega

theorem update_ewma_window (d : AnomalyDetector) (v : ℝ) :
    (update_ewma d v).data_window = d.data_window := by
  unfold update_ewma
  split <;> rfl

theorem update_ewma_config (d : AnomalyDetector) (v : ℝ) :
    (update_ewma d v).window_size = d.window_size ∧
    (update_ewma d v).alpha = d.alpha ∧
    (update_ewma d v).z_thresh = d.z_thresh := by
  unfold update_ewma
  split <;> exact ⟨rfl, rfl, rfl⟩

theorem detect_anomaly_fst_window (d : AnomalyDetector) (v : ℝ) :
    (detect_anomaly d v).1.data_window = dequeAppend d.window_size d.data_window v := by
  simp only [detect_anomaly]
  split
  · rfl
  · rw [update_ewma_window]

theorem detect_anomaly_fst_config (d : AnomalyDetector) (v : ℝ) :
    (detect_anomaly d v).1.window_size = d.window_size ∧
    (detect_anomaly d v).1.alpha = d.alpha ∧
    (detect_anomaly d v).1.z_thresh = d.z_thresh := by
  simp only [detect_anomaly]
  split
  · exact ⟨rfl, rfl, rfl⟩
  · exact update_ewma_config _ v

theorem detect_anomaly_snd (d : AnomalyDetector) (v : ℝ) :
    (detect_anomaly d v).2 = scoreDecision d.window_size d.z_thresh d.data_window v := by
  simp only [detect_anomaly, scoreDecision]
  split <;> rfl

theorem detect_anomaly_warmup (d : AnomalyDetector) (v : ℝ)
    (h : d.data_window.length + 1 < d.window_size) :
    detect_anomaly d v = ({ d with data_window := d.data_window ++ [v] }, false) := by
  have h1 : dequeAppend d.window_size d.data_window v = d.data_window ++ [v] := by
    rw [dequeAppend_eq_drop]
    have h0 : d.data_window.length + 1 - d.window_size = 0 := by omega
    rw [h0, List.drop_zero]
  have h2 : (d.data_window ++ [v]).length < d.window_size := by
    simp only [List.length_append, List.length_cons, List.length_nil]
    omega
  simp only [detect_anomaly, h1]
  rw [if_pos h2]

theorem runDetector_warmup (vs : List ℝ) (d : AnomalyDetector)
    (h : d.data_window.length + vs.length < d.window_size) :
    runDetector d vs =
      ({ d with data_window := d.data_window ++ vs }, List.replicate vs.length false) := by
  induction vs generalizing d with
  | nil => simp [runDetector]
  | cons v vs ih =>
    simp only [List.length_cons] at h
    rw [runDetector, detect_anomaly_warmup d v (by omega)]
    rw [ih { d with data_window := d.data_window ++ [v] }
      (by simp only [List.length_append, List.length_cons, List.length_nil]; omega)]
    simp [List.replicate_succ]

theorem runDetector_config (vs : List ℝ) (d : AnomalyDetector) :
    (runDetector d vs).1.window_size = d.window_size ∧
    (runDetector d vs).1.alpha = d.alpha ∧
    (runDetector d vs).1.z_thresh = d.z_thresh := by
  induction vs generalizing d with
  | nil => exact ⟨rfl, rfl, rfl⟩
  | cons v vs ih =>
    rw [runDetector]
    obtain ⟨h1, h2, h3⟩ := ih (detect_anomaly d v).1
    obtain ⟨g1, g2, g3⟩ := detect_anomaly_fst_config d v
    exact ⟨h1.trans g1, h2.trans g2, h3.trans g3⟩

theorem runDetector_window_drop (vs : List ℝ) (d : AnomalyDetector)
    (h : d.data_window.length ≤ d.window_size) :
    (runDetector d vs).1.data_window =
      (d.data_window ++ vs).drop (d.data_window.length + vs.length - d.window_size) := by
  induction vs generalizing d with
  | nil =>
    simp only [runDetector, List.append_nil, List.length_nil, Nat.add_zero]
    rw [Nat.sub_eq_zero_of_le h, List.drop_zero]
  | cons v vs ih =>
    rw [runDetector]
    have hN : (detect_anomaly d v).1.window_size = d.window_size :=
      (detect_anomaly_fst_config d v).1
    have hw : (detect_anomaly d v).1.data_window =
        (d.data_window ++ [v]).drop (d.data_window.length + 1 - d.window_size) := by
      rw [detect_anomaly_fst_window, dequeAppend_eq_drop]
    have hlen : (detect_anomaly d v).1.data_window.length ≤ (detect_anomaly d v).1.window_size := by
      rw [hw, hN]
      simp only [List.length_drop, List.length_append, List.length_cons, List.length_nil]
      omega
    rw [ih (detect_anomaly d v).1 hlen, hw, hN]
    have hk1 : d.data_window.length + 1 - d.window_size ≤ (d.data_window ++ [v]).length := by
      simp only [List.length_append, List.length_cons, List.length_nil]
      omega
    rw [← List.drop_append_of_le_length hk1]
    rw [List.drop_drop, List.append_assoc, List.singleton_append]
    congr 1
    simp only [List.length_drop, List.length_append, List.length_cons, List.length_nil]
    omega

theorem runDetector_append (vs ws : List ℝ) (d : AnomalyDetector) :
    runDetector d (vs ++ ws) =
      ((runDetector (runDetector d vs).1 ws).1,
       (runDetector d vs).2 ++ (runDetector (runDetector d vs).1 ws).2) := by
  induction vs generalizing d with
  | nil => simp [runDetector]
  | cons v vs ih => simp [runDetector, ih]

theorem dequeAppend_replicate (N m : ℕ) (c : ℝ) :
    dequeAppend N (List.replicate m c) c = List.replicate (min (m + 1) N) c := by
  rw [dequeAppend_eq_drop, ← List.replicate_succ', List.drop_replicate]
  congr 1
  simp only [List.length_replicate]
  omega

theorem listMean_replicate (m : ℕ) (c : ℝ) (hm : m ≠ 0) :
    listMean (List.replicate m c) = c := by
  have hm' : (m : ℝ) ≠ 0 := Nat.cast_ne_zero.2 hm
  simp only [listMean, List.sum_replicate, List.length_replicate, nsmul_eq_mul]
  rw [mul_comm, mul_div_assoc, div_self hm', mul_one]

theorem listPopVar_replicate (m : ℕ) (c : ℝ) :
    listPopVar (List.replicate m c) = 0 := by
  cases m with
  | zero => simp [listPopVar, listMean]
  | succ k =>
    simp only [listPopVar, listMean_replicate (k + 1) c (Nat.succ_ne_zero k),
      List.map_replicate, sub_self]
    simp

theorem listPopStd_replicate (m : ℕ) (c : ℝ) :
    listPopStd (List.replicate m c) = 0 := by
  rw [listPopStd, listPopVar_replicate, Real.sqrt_zero]

theorem detect_anomaly_replicate_false (d : AnomalyDetector) (c : ℝ) (m : ℕ)
    (hw : d.data_window = List.replicate m c) (ht : 0 < d.z_thresh) :
    (detect_anomaly d c).2 = false := by
  rw [detect_anomaly_snd]
  simp only [scoreDecision]
  split
  · rfl
  · rw [hw, dequeAppend_replicate, listPopStd_replicate]
    rw [if_neg (lt_irrefl 0), abs_zero]
    exact decide_eq_false (asymm ht)

theorem runDetector_replicate_false (j : ℕ) (c : ℝ) :
    ∀ (d : AnomalyDetector) (m : ℕ), d.data_window = List.replicate m c →
      0 < d.z_thresh →
      (runDetector d (List.replicate j c)).2 = List.replicate j false := by
  induction j with
  | zero => intro d m _ _; rfl
  | succ j ih =>
    intro d m hw ht
    rw [List.replicate_succ, runDetector]
    have hw2 : (detect_anomaly d c).1.data_window =
        List.replicate (min (m + 1) d.window_size) c := by
      rw [detect_anomaly_fst_window, hw, dequeAppend_replicate]
    have ht2 : 0 < (detect_anomaly d c).1.z_thresh := by
      rw [(detect_anomaly_fst_config d c).2.2]; exact ht
    rw [List.replicate_succ]
    simp only []
    rw [ih (detect_anomaly d c).1 (min (m + 1) d.window_size) hw2 ht2,
      detect_anomaly_replicate_false d c m hw ht]

theorem detect_anomaly_active (d : AnomalyDetector) (v : ℝ)
    (h : d.window_size ≤ (dequeAppend d.window_size d.data_window v).length) :
    detect_anomaly d v =
      (update_ewma { d with data_window := dequeAppend d.window_size d.data_window v } v,
       decide (|if listPopStd (dequeAppend d.window_size d.data_window v) > 0
         then (v - listMean (dequeAppend d.window_size d.data_window v)) /
              listPopStd (dequeAppend d.window_size d.data_window v)
         else 0| > d.z_thresh)) := by
  simp only [detect_anomaly]
  rw [if_neg (Nat.not_lt.2 h)]

/-! ### The claims -/

/-- Claim C1: in the Active state (window full after the append),
`detect_anomaly` appends the value, computes mean and population standard
deviation over the post-append window, derives the guarded z-score, updates
the EWMA state on the post-append window, and returns `abs(z) > z_thresh`. -/
theorem C1_active_pipeline (d : AnomalyDetector) (v : ℝ)
    (h : d.window_size ≤ (dequeAppend d.window_size d.data_window v).length) :
    detect_anomaly d v =
      (update_ewma { d with data_window := dequeAppend d.window_size d.data_window v } v,
       decide (|if listPopStd (dequeAppend d.window_size d.data_window v) > 0
         then (v - listMean (dequeAppend d.window_size d.data_window v)) /
              listPopStd (dequeAppend d.window_size d.data_window v)
         else 0| > d.z_thresh)) :=
  detect_anomaly_active d v h

/-- Witness for C1 at window size 1, empty window, value 0. -/
theorem C1_active_pipeline_witness :
    (initState 1 0 0).window_size ≤
      (dequeAppend (initState 1 0 0).window_size (initState 1 0 0).data_window 0).length ∧
    detect_anomaly (initState 1 0 0) 0 =
      (update_ewma ({ initState 1 0 0 with data_window :=
          (dequeAppend (initState 1 0 0).window_size (initState 1 0 0).data_window 0) }) 0,
       decide (|if listPopStd
           (dequeAppend (initState 1 0 0).window_size (initState 1 0 0).data_window 0) > 0
         then ((0 : ℝ) - listMean
             (dequeAppend (initState 1 0 0).window_size (initState 1 0 0).data_window 0)) /
           listPopStd (dequeAppend (initState 1 0 0).window_size (initState 1 0 0).data_window 0)
         else 0| > (initState 1 0 0).z_thresh)) := by
  have h : (initState 1 0 0).window_size ≤
      (dequeAppend (initState 1 0 0).window_size (initState 1 0 0).data_window 0).length := by
    rw [dequeAppend_length]
    simp [initState]
  exact ⟨h, C1_active_pipeline (initState 1 0 0) 0 h⟩

/-- Claim C2: for window size `N ≥ 1`, any sequence of at most `N - 1` calls
from a fresh detector returns `false` at every call, whatever the values, and
leaves the EWMA state (here started at arbitrary `m`, `s`) untouched. -/
theorem C2_warmup_suppression (N : ℕ) (a t m s : ℝ) (vs : List ℝ)
    (hN : 1 ≤ N) (h : vs.length ≤ N - 1) :
    (runDetector { initState N a t with ewma_mean := m, ewma_var := s } vs).2 =
      List.replicate vs.length false ∧
    (runDetector { initState N a t with ewma_mean := m, ewma_var := s } vs).1.ewma_mean = m ∧
    (runDetector { initState N a t with ewma_mean := m, ewma_var := s } vs).1.ewma_var = s := by
  have hlt : ({ initState N a t with ewma_mean := m, ewma_var := s } :
      AnomalyDetector).data_window.length + vs.length <
      ({ initState N a t with ewma_mean := m, ewma_var := s } :
        AnomalyDetector).window_size := by
    simp only [initState, List.length_nil]
    omega
  rw [runDetector_warmup vs _ hlt]
  exact ⟨rfl, rfl, rfl⟩

/-- Witness for C2: window size 2, one extreme sample, EWMA state (1, 2). -/
theorem C2_warmup_suppression_witness :
    ((1 : ℕ) ≤ 2 ∧ ([(1000 : ℝ)] : List ℝ).length ≤ 2 - 1) ∧
    ((runDetector { initState 2 0 0 with ewma_mean := 1, ewma_var := 2 }
        [(1000 : ℝ)]).2 = List.replicate ([(1000 : ℝ)] : List ℝ).length false ∧
     (runDetector { initState 2 0 0 with ewma_mean := 1, ewma_var := 2 }
        [(1000 : ℝ)]).1.ewma_mean = 1 ∧
     (runDetector { initState 2 0 0 with ewma_mean := 1, ewma_var := 2 }
        [(1000 : ℝ)]).1.ewma_var = 2) :=
  ⟨⟨by norm_num, by norm_num⟩,
   C2_warmup_suppression 2 0 0 1 2 [(1000 : ℝ)] (by norm_num) (by norm_num)⟩

/-- Claim C3: from a fresh detector with window size `N ≥ 1`, after any call
sequence the window holds exactly the most recent `min (calls, N)` values in
arrival order: it is the drop of all but the last `N` inputs, its length never
exceeds `N`, it is exactly `N` once at least `N` calls were made, and after
`N + 1` values the oldest one is evicted (the window is the tail). -/
theorem C3_window_fifo (N : ℕ) (a t : ℝ) (vs : List ℝ) (hN : 1 ≤ N) :
    (runDetector (initState N a t) vs).1.data_window = vs.drop (vs.length - N) ∧
    (runDetector (initState N a t) vs).1.data_window.length ≤ N ∧
    (N ≤ vs.length → (runDetector (initState N a t) vs).1.data_window.length = N) ∧
    (vs.length = N + 1 → (runDetector (initState N a t) vs).1.data_window = vs.tail) := by
  have h0 : (initState N a t).data_window.length ≤ (initState N a t).window_size := by
    simp [initState]
  have hw : (runDetector (initState N a t) vs).1.data_window =
      vs.drop (vs.length - N) := by
    have h2 := runDetector_window_drop vs (initState N a t) h0
    simpa [initState] using h2
  refine ⟨hw, ?_, ?_, ?_⟩
  · rw [hw]
    simp only [List.length_drop]
    omega
  · intro hge
    rw [hw]
    simp only [List.length_drop]
    omega
  · intro h1
    rw [hw, h1]
    have h2 : N + 1 - N = 1 := by omega
    rw [h2, List.drop_one]

/-- Witness for C3: window size 1 fed two values keeps only the second. -/
theorem C3_window_fifo_witness :
    (1 : ℕ) ≤ 1 ∧
    ((runDetector (initState 1 0 0) [(1 : ℝ), 2]).1.data_window =
        ([(1 : ℝ), 2] : List ℝ).drop (([(1 : ℝ), 2] : List ℝ).length - 1) ∧
     (runDetector (initState 1 0 0) [(1 : ℝ), 2]).1.data_window.length ≤ 1 ∧
     ((1 : ℕ) ≤ ([(1 : ℝ), 2] : List ℝ).length →
        (runDetector (initState 1 0 0) [(1 : ℝ), 2]).1.data_window.length = 1) ∧
     (([(1 : ℝ), 2] : List ℝ).length = 1 + 1 →
        (runDetector (initState 1 0 0) [(1 : ℝ), 2]).1.data_window =
          ([(1 : ℝ), 2] : List ℝ).tail)) :=
  ⟨by norm_num, C3_window_fifo 1 0 0 [(1 : ℝ), 2] (by norm_num)⟩

/-- Claim C4: with window size `N ≥ 1` and a positive threshold, feeding `N`
identical values and then one more identical value returns `false` at every
call (in particular the last one); the full window of identical values has
standard deviation zero, so the z-score guard takes the `z = 0` branch and no
division happens. -/
theorem C4_zero_variance_guard (N : ℕ) (a t c : ℝ) (hN : 1 ≤ N) (ht : 0 < t) :
    (runDetector (initState N a t) (List.replicate (N + 1) c)).2 =
      List.replicate (N + 1) false ∧
    listPopStd (List.replicate N c) = 0 :=
  ⟨runDetector_replicate_false (N + 1) c (initState N a t) 0 rfl ht,
   listPopStd_replicate N c⟩

/-- Witness for C4 at window size 1, threshold 1, constant value 5. -/
theorem C4_zero_variance_guard_witness :
    ((1 : ℕ) ≤ 1 ∧ (0 : ℝ) < 1) ∧
    ((runDetector (initState 1 0 1) (List.replicate (1 + 1) (5 : ℝ))).2 =
        List.replicate (1 + 1) false ∧
     listPopStd (List.replicate 1 (5 : ℝ)) = 0) :=
  ⟨⟨by norm_num, by norm_num⟩,
   C4_zero_variance_guard 1 0 1 (5 : ℝ) (by norm_num) (by norm_num)⟩

/-- Claim C5: on a freshly constructed detector (empty window), the first
`update_ewma` call sets `ewma_mean` to the value and `ewma_var` to 0 exactly. -/
theorem C5_ewma_cold_start (N : ℕ) (a t v : ℝ) :
    (update_ewma (initState N a t) v).ewma_mean = v ∧
    (update_ewma (initState N a t) v).ewma_var = 0 := by
  simp [update_ewma, initState]

/-- Claim C6: when the window is nonempty, `update_ewma` first forms the new
mean `m2 = alpha * v + (1 - alpha) * m` and then the new variance
`alpha * (v - m2)^2 + (1 - alpha) * s`, reading the just-updated mean. -/
theorem C6_ewma_recurrence_order (d : AnomalyDetector) (v : ℝ)
    (h : d.data_window ≠ []) :
    (update_ewma d v).ewma_mean = d.alpha * v + (1 - d.alpha) * d.ewma_mean ∧
    (update_ewma d v).ewma_var =
      d.alpha * (v - (d.alpha * v + (1 - d.alpha) * d.ewma_mean)) ^ 2 +
        (1 - d.alpha) * d.ewma_var ∧
    (update_ewma d v).ewma_var =
      d.alpha * (v - (update_ewma d v).ewma_mean) ^ 2 + (1 - d.alpha) * d.ewma_var := by
  have h0 : ¬ d.data_window.length = 0 := by simpa using h
  unfold update_ewma
  rw [if_neg h0]
  exact ⟨rfl, rfl, rfl⟩

/-- Witness for C6 on a one-element window with state (1, 2), alpha 1/2. -/
theorem C6_ewma_recurrence_order_witness :
    (AnomalyDetector.mk 1 (1/2) 3 [(4 : ℝ)] 1 2).data_window ≠ [] ∧
    ((update_ewma (AnomalyDetector.mk 1 (1/2) 3 [(4 : ℝ)] 1 2) 4).ewma_mean =
        (1 : ℝ)/2 * 4 + (1 - 1/2) * 1 ∧
     (update_ewma (AnomalyDetector.mk 1 (1/2) 3 [(4 : ℝ)] 1 2) 4).ewma_var =
        (1 : ℝ)/2 * (4 - ((1 : ℝ)/2 * 4 + (1 - 1/2) * 1)) ^ 2 + (1 - 1/2) * 2 ∧
     (update_ewma (AnomalyDetector.mk 1 (1/2) 3 [(4 : ℝ)] 1 2) 4).ewma_var =
        (1 : ℝ)/2 *
            (4 - (update_ewma (AnomalyDetector.mk 1 (1/2) 3 [(4 : ℝ)] 1 2) 4).ewma_mean) ^ 2 +
          (1 - 1/2) * 2) :=
  ⟨by simp,
   C6_ewma_recurrence_order (AnomalyDetector.mk 1 (1/2) 3 [(4 : ℝ)] 1 2) 4 (by simp)⟩

/-- Claim C7 counterexample: the configuration `window_size = 0`, `alpha = 2`,
`z_thresh = -1` violates every stated bound, yet construction succeeds (the
constructor contains no validation; the deque only rejects a negative
`maxlen`). -/
theorem C7_counterexample :
    mkDetector 0 2 (-1) = Except.ok (initState 0 2 (-1)) ∧
    (0 : ℤ) ≤ 0 ∧ ¬ (0 < (2 : ℝ) ∧ (2 : ℝ) ≤ 1) ∧ (-1 : ℝ) ≤ 0 := by
  refine ⟨?_, le_refl 0, ?_, ?_⟩
  · simp [mkDetector]
  · norm_num
  · norm_num

/-- Claim C7 (amended): construction performs no validation of `alpha` or
`z_thresh` and accepts `window_size = 0`; the only construction failure is the
deque's `ValueError` for a negative `window_size`.  (Streaming, embedded as
the total function `detect_anomaly`, never fails.) -/
theorem C7_no_validation (ws : ℤ) (a t : ℝ) :
    (0 ≤ ws → mkDetector ws a t = Except.ok (initState ws.toNat a t)) ∧
    (ws < 0 → mkDetector ws a t = Except.error "maxlen must be non-negative") := by
  constructor
  · intro h
    simp only [mkDetector]
    rw [if_neg (by omega)]
  · intro h
    simp only [mkDetector]
    rw [if_pos h]

/-- Witness for the amended C7: `window_size = 1` constructs, `-1` errors. -/
theorem C7_no_validation_witness :
    mkDetector 1 0 0 = Except.ok (initState (Int.toNat 1) 0 0) ∧
    mkDetector (-1) 0 0 = Except.error "maxlen must be non-negative" :=
  ⟨(C7_no_validation 1 0 0).1 (by norm_num),
   (C7_no_validation (-1) 0 0).2 (by norm_num)⟩

/-- Claim C8: two detector states that agree on configuration and window
contents but differ arbitrarily in `ewma_mean` / `ewma_var` return the same
boolean from `detect_anomaly`; the EWMA statistics never feed the decision. -/
theorem C8_ewma_noninterference (d1 d2 : AnomalyDetector) (v : ℝ)
    (hN : d1.window_size = d2.window_size) (ha : d1.alpha = d2.alpha)
    (ht : d1.z_thresh = d2.z_thresh) (hw : d1.data_window = d2.data_window) :
    (detect_anomaly d1 v).2 = (detect_anomaly d2 v).2 := by
  rw [detect_anomaly_snd, detect_anomaly_snd, hN, ht, hw]

/-- Witness for C8: same configuration and window, EWMA states (0,0) vs
(5,7). -/
theorem C8_ewma_noninterference_witness :
    ((initState 1 0 3).window_size =
      ({ initState 1 0 3 with ewma_mean := 5, ewma_var := 7 } :
        AnomalyDetector).window_size) ∧
    ((initState 1 0 3).alpha =
      ({ initState 1 0 3 with ewma_mean := 5, ewma_var := 7 } :
        AnomalyDetector).alpha) ∧
    ((initState 1 0 3).z_thresh =
      ({ initState 1 0 3 with ewma_mean := 5, ewma_var := 7 } :
        AnomalyDetector).z_thresh) ∧
    ((initState 1 0 3).data_window =
      ({ initState 1 0 3 with ewma_mean := 5, ewma_var := 7 } :
        AnomalyDetector).data_window) ∧
    (detect_anomaly (initState 1 0 3) 2).2 =
      (detect_anomaly { initState 1 0 3 with ewma_mean := 5, ewma_var := 7 } 2).2 :=
  ⟨rfl, rfl, rfl, rfl,
   C8_ewma_noninterference (initState 1 0 3)
     { initState 1 0 3 with ewma_mean := 5, ewma_var := 7 } 2 rfl rfl rfl rfl⟩

/-- Claim C10: for `N ≥ 1` the cold-start branch of `update_ewma` is
unreachable through `detect_anomaly`: the first classification that runs the
EWMA update (after `N - 1` warm-up samples) sees a nonempty window, so it
takes the recurrence branch against the constructor state (0, 0), yielding
`ewma_mean = alpha * v` (not `v`) and `ewma_var = alpha * (v - alpha * v)^2`. -/
theorem C10_cold_start_unreachable (N : ℕ) (a t : ℝ) (vs : List ℝ) (v : ℝ)
    (hN : 1 ≤ N) (hlen : vs.length + 1 = N) :
    (detect_anomaly (runDetector (initState N a t) vs).1 v).1.ewma_mean = a * v ∧
    (detect_anomaly (runDetector (initState N a t) vs).1 v).1.ewma_var =
      a * (v - a * v) ^ 2 := by
  have hwd : (runDetector (initState N a t) vs).1 =
      { window_size := N, alpha := a, z_thresh := t, data_window := vs,
        ewma_mean := 0, ewma_var := 0 } := by
    rw [runDetector_warmup vs _ (by simp only [initState, List.length_nil]; omega)]
    rfl
  rw [hwd]
  have hfull : ¬ (dequeAppend N vs v).length < N := by
    rw [dequeAppend_length]
    omega
  have hne : ¬ (dequeAppend N vs v).length = 0 := by
    rw [dequeAppend_length]
    omega
  simp only [detect_anomaly]
  rw [if_neg hfull]
  simp only [update_ewma]
  rw [if_neg hne]
  constructor
  · show a * v + (1 - a) * 0 = a * v
    ring
  · show a * (v - (a * v + (1 - a) * 0)) ^ 2 + (1 - a) * 0 = a * (v - a * v) ^ 2
    ring

/-- Witness for C10 at window size 1 (no warm-up samples), alpha 1/2, value 4. -/
theorem C10_cold_start_unreachable_witness :
    ((1 : ℕ) ≤ 1 ∧ ([] : List ℝ).length + 1 = 1) ∧
    ((detect_anomaly (runDetector (initState 1 (1/2) 3) []).1 4).1.ewma_mean =
        (1 : ℝ)/2 * 4 ∧
     (detect_anomaly (runDetector (initState 1 (1/2) 3) []).1 4).1.ewma_var =
        (1 : ℝ)/2 * (4 - (1 : ℝ)/2 * 4) ^ 2) :=
  ⟨⟨by norm_num, by norm_num⟩,
   C10_cold_start_unreachable 1 (1/2) 3 [] 4 (by norm_num) (by norm_num)⟩

/-- Claim C9: with window size 5 and threshold 3, feeding 10, 10, 10, 10, 50
from a fresh detector: the fifth call sees mean 18, population standard
deviation exactly 16, z-score (50 - 18) / 16 = 2, and returns `false`
(every call of the run returns `false`, the threshold 3 is not exceeded). -/
theorem C9_deterministic_scenario (a : ℝ) :
    listMean [(10 : ℝ), 10, 10, 10, 50] = 18 ∧
    listPopStd [(10 : ℝ), 10, 10, 10, 50] = 16 ∧
    ((50 : ℝ) - listMean [(10 : ℝ), 10, 10, 10, 50]) /
        listPopStd [(10 : ℝ), 10, 10, 10, 50] = 2 ∧
    (runDetector (initState 5 a 3) [10, 10, 10, 10, 50]).2 =
      [false, false, false, false, false] := by
  have hmean : listMean [(10 : ℝ), 10, 10, 10, 50] = 18 := by
    norm_num [listMean]
  have hvar : listPopVar [(10 : ℝ), 10, 10, 10, 50] = 256 := by
    norm_num [listPopVar, hmean]
  have hstd : listPopStd [(10 : ℝ), 10, 10, 10, 50] = 16 := by
    rw [listPopStd, hvar, show (256 : ℝ) = 16 ^ 2 by norm_num,
      Real.sqrt_sq (by norm_num : (0 : ℝ) ≤ 16)]
  have hz : ((50 : ℝ) - listMean [(10 : ℝ), 10, 10, 10, 50]) /
      listPopStd [(10 : ℝ), 10, 10, 10, 50] = 2 := by
    rw [hmean, hstd]
    norm_num
  refine ⟨hmean, hstd, hz, ?_⟩
  have h4 : runDetector (initState 5 a 3) [10, 10, 10, 10] =
      (AnomalyDetector.mk 5 a 3 [(10 : ℝ), 10, 10, 10] 0 0,
       [false, false, false, false]) := by
    rw [runDetector_warmup _ _ (by norm_num [initState])]
    rfl
  have h5 : (detect_anomaly (AnomalyDetector.mk 5 a 3 [(10 : ℝ), 10, 10, 10] 0 0) 50).2 =
      false := by
    rw [detect_anomaly_snd]
    have hda : dequeAppend 5 [(10 : ℝ), 10, 10, 10] 50 = [(10 : ℝ), 10, 10, 10, 50] := by
      rw [dequeAppend_eq_drop]
      simp
    simp only [scoreDecision]
    rw [hda]
    rw [if_neg (by norm_num)]
    rw [hstd, hmean]
    rw [if_pos (by norm_num : (16 : ℝ) > 0)]
    rw [show ((50 : ℝ) - 18) / 16 = 2 by norm_num,
      show |(2 : ℝ)| = 2 from abs_of_nonneg (by norm_num)]
    exact decide_eq_false (by norm_num)
  rw [show ([10, 10, 10, 10, 50] : List ℝ) = [10, 10, 10, 10] ++ [50] from rfl]
  rw [runDetector_append, h4]
  simp only [runDetector]
  rw [h5]
  rfl

end Anomaly
